import Mathlib

/-!
Verification of the SDFG construction entry point of the `dace` Python
frontend (`dace/frontend/python/parser.py`), via a shallow embedding.

Host Python values are modelled by `PyValue`, which records exactly the
capabilities `_create_datadescriptor` probes for, in the order the source
probes them: being a `data.Data` instance, carrying a `descriptor`
attribute, being a numpy `ndarray`, being symbolic, being a `dtypes.typeclass`
instance, and the fallback runtime type.  External collaborator modules
(`astparser`, `depanalysis`, the `SDFG` class, `Config`) are not part of the
sources; they are modelled as explicit parameters (a parser function, a
record of SDFG operations, a configuration flag), so that the control flow
of `parser.py` itself is embedded faithfully while the collaborators stay
abstract.
-/

set_option autoImplicit false

namespace DaceParser

/-- Data descriptors, modelling `dace.data.Data` and its subclasses
`data.Array` and `data.Scalar` (other subclasses such as streams are
represented by `otherData`).  Element types and runtime types are
abstracted as natural-number tags. -/
inductive Descriptor where
  | array (dtype : Nat) (shape : List Nat)
  | scalarD (dtype : Nat)
  | otherData (tag : Nat)
deriving DecidableEq, Repr

/-- Modelled from the spec: `dtypes.typeclass` converts a host type tag into
a type-class tag; per the spec the Descriptor Resolver "never fails (always
falls through to a default)", so the conversion is total.  The module
`dace/dtypes.py` is not part of the given sources. -/
def typeclass (t : Nat) : Nat := t

/-- A host Python value, recording the capabilities that
`_create_datadescriptor` (parser.py lines 18-35) probes for.  Each field is
`some` exactly when the corresponding runtime test on the object succeeds:
`isData` when `isinstance(obj, data.Data)` (carrying the object itself as a
descriptor), `descriptorAttr` when reading `obj.descriptor` succeeds,
`ndarrayInfo` when `isinstance(obj, numpy.ndarray)` (carrying the dtype tag
and shape), `symbolicType` when `symbolic.issymbolic(obj)` (carrying
`symbolic.symtype(obj)`), `typeclassVal` when
`isinstance(obj, dtypes.typeclass)`.  `runtimeType` models `type(obj)` and
`symbolName` is `some` when `isinstance(obj, symbolic.symbol)`, carrying
`obj.name`. -/
structure PyValue where
  isData : Option Descriptor
  descriptorAttr : Option Descriptor
  ndarrayInfo : Option (Nat × List Nat)
  symbolicType : Option Nat
  typeclassVal : Option Nat
  runtimeType : Nat
  symbolName : Option String
deriving DecidableEq, Repr

/-- Embedding of `_create_datadescriptor` (parser.py lines 18-35): the
probes are tried in the order of the source.  A `data.Data` instance is
returned unchanged; an object with a `descriptor` attribute yields that
attribute; a numpy array yields `data.Array(dtype=typeclass(obj.dtype.type),
shape=obj.shape)`; a symbolic expression yields `data.Scalar(symtype(obj))`;
a typeclass tag yields `data.Scalar(obj)`; anything else falls through to
`data.Scalar(typeclass(type(obj)))`. -/
def _create_datadescriptor (obj : PyValue) : Descriptor :=
  match obj.isData with
  | some d => d
  | none =>
    match obj.descriptorAttr with
    | some d => d
    | none =>
      match obj.ndarrayInfo with
      | some ts => Descriptor.array (typeclass ts.1) ts.2
      | none =>
        match obj.symbolicType with
        | some t => Descriptor.scalarD t
        | none =>
          match obj.typeclassVal with
          | some t => Descriptor.scalarD t
          | none => Descriptor.scalarD (typeclass obj.runtimeType)

/-- The combined first arm of the resolver dispatch: a value "already
carries" a descriptor when it is a `data.Data` instance (the descriptor is
the value itself) or exposes a `descriptor` attribute, probed in that
order. -/
def alreadyDescribed (obj : PyValue) : Option Descriptor :=
  match obj.isData with
  | some d => some d
  | none => obj.descriptorAttr

/-- Errors raised by the construction pipeline.  `typeError` and
`syntaxError` model Python `TypeError` and `SyntaxError` (usage errors);
`nameError` models a Python `NameError` on an undefined global name. -/
inductive PError where
  | typeError (msg : String)
  | syntaxError (msg : String)
  | nameError (name : String)
deriving DecidableEq, Repr

/-- Usage errors per the error taxonomy: the two exception kinds raised by
the type-annotation resolution code paths. -/
def isUsageError : PError → Bool
  | PError.typeError _ => true
  | PError.syntaxError _ => true
  | PError.nameError _ => false

/-- Embedding of `_get_type_annotations` (parser.py lines 38-73).  The
function annotations of the callable are an association list (Python
guarantees keys are parameter names plus possibly `return`); decorator
arguments are positional.  The guard structure mirrors the source: `return`
annotation check first, then the both-sources check, then (when decorator
arguments are present) the count check and the zip, then (when inline
annotations are present) the all-or-nothing count check, and finally the
annotation-derived mapping (empty when neither source is present). -/
def _get_type_annotations (annotations : List (String × PyValue))
    (f_argnames : List String) (decorator_args : List PyValue) :
    Except PError (List (String × Descriptor)) :=
  if (annotations.any fun kv => kv.1 == "return") = true then
    Except.error (PError.typeError "DaCe programs do not have a return type")
  else if 0 < decorator_args.length ∧ 0 < annotations.length then
    Except.error (PError.syntaxError
      "DaCe programs can only have decorator arguments or type annotations, but not both")
  else if 0 < decorator_args.length ∧ decorator_args.length ≠ f_argnames.length then
    Except.error (PError.syntaxError
      "Decorator arguments must match number of DaCe program parameters")
  else if 0 < decorator_args.length then
    Except.ok (List.zip f_argnames (decorator_args.map _create_datadescriptor))
  else if 0 < annotations.length ∧ annotations.length ≠ f_argnames.length then
    Except.error (PError.syntaxError
      "Either none or all DaCe program parameters must have type annotations")
  else
    Except.ok (annotations.map fun kv => (kv.1, _create_datadescriptor kv.2))

/-- A value bound in the global namespace of the callable (or passed as a keyword
argument), classified the way `generate_pdp` classifies it: `allowed` when
`dtypes.isallowed(v)` holds (numeric scalars, symbols, type tags, per the
spec), `moduleVal` when `dtypes.ismodule(v)` holds, carrying the
canonical `__name__` of the module, and `notAllowed` otherwise.  Modelled from the spec:
`dace/dtypes.py` (defining `isallowed` and `ismodule`) is not part of the
given sources; per the spec the two classes are disjoint ("allowed constant
types" versus "bindings that are modules"). -/
inductive GlobalVal where
  | allowed (v : PyValue)
  | moduleVal (name : String)
  | notAllowed (tag : Nat)
deriving DecidableEq, Repr

/-- Predicate for `dtypes.isallowed`. -/
def isAllowedVal : GlobalVal → Bool
  | GlobalVal.allowed _ => true
  | _ => false

/-- Lookup in an association list with Python-dict semantics (first match;
Python dict keys are unique, so first match is the match). -/
def dictLookup {α : Type} : List (String × α) → String → Option α
  | [], _ => none
  | kv :: rest, k => if kv.1 = k then some kv.2 else dictLookup rest k

/-- Key assignment with Python-dict semantics: replace the value at an
existing key in place, otherwise append the new binding at the end. -/
def dictSet {α : Type} : List (String × α) → String → α → List (String × α)
  | [], k, v => [(k, v)]
  | kv :: rest, k, v =>
    if kv.1 = k then (k, v) :: rest else kv :: dictSet rest k v

/-- Python `dict.update`: assign every binding of the second list into the
first, in order. -/
def dictUpdate {α : Type} (d e : List (String × α)) : List (String × α) :=
  e.foldl (fun acc kv => dictSet acc kv.1 kv.2) d

/-- Embedding of a `DaceProgram` object (parser.py lines 202-213): the
wrapped callable is represented by its observable pieces — its
`__annotations__`, its argument names (`_get_argnames`), the decorator
positional arguments `args`, the decorator keyword arguments `kwargs`
(classified values), and its `__globals__` (classified values). -/
structure DaceProgramRec where
  name : String
  annotations : List (String × PyValue)
  argnames : List String
  args : List PyValue
  kwargs : List (String × GlobalVal)
  globalsList : List (String × GlobalVal)
deriving DecidableEq, Repr

/-- The external AST parser `astparser.parse_dace_program`, abstracted: it
receives the callable, the resolved argument-type map, the global-variable
bindings and the module-alias map, and produces a parsed program of an
arbitrary type `P`. -/
def ParserFun (P : Type) : Type :=
  DaceProgramRec → List (String × Descriptor) → List (String × GlobalVal) →
    List (String × String) → P

/-- The module-alias map computed by `generate_pdp` (parser.py lines
282-286): one entry per module bound in the globals, mapping the binding
name to the `__name__` of the module, followed by the assignment of the empty
string under the key `builtins`. -/
def modulesOf (globalsList : List (String × GlobalVal)) : List (String × String) :=
  dictSet
    (globalsList.filterMap fun kv =>
      match kv.2 with
      | GlobalVal.moduleVal n => some (kv.1, n)
      | _ => none)
    "builtins" ""

/-- The global-variable map computed by `generate_pdp` (parser.py lines
278-281 and 288-297): the allowed globals, updated with one entry per
symbolic symbol under its own name, updated with the allowed keyword
arguments. -/
def globalVarsOf (self : DaceProgramRec) : List (String × GlobalVal) :=
  let g0 := self.globalsList.filter fun kv => isAllowedVal kv.2
  let g1 := dictUpdate g0
    (g0.filterMap fun kv =>
      match kv.2 with
      | GlobalVal.allowed v => v.symbolName.map fun n => (n, GlobalVal.allowed v)
      | _ => none)
  dictUpdate g1 (self.kwargs.filter fun kv => isAllowedVal kv.2)

/-- Embedding of `DaceProgram.generate_pdp` (parser.py lines 243-304).
Annotation resolution runs first; when it yields an empty type map the
compilation arguments are required, count-checked against the parameter
names, and zipped positionally; then the globals are classified and the
external parser is invoked with the resolved inputs.  The external parser
is an explicit argument, so the result of every path that raises before it
is reached is independent of it. -/
def generate_pdp {P : Type} (astparse : ParserFun P) (self : DaceProgramRec)
    (compilation_args : List PyValue) :
    Except PError (P × List (String × String)) :=
  match _get_type_annotations self.annotations self.argnames self.args with
  | Except.error e => Except.error e
  | Except.ok argtypes0 =>
    let resolved : Except PError (List (String × Descriptor)) :=
      if argtypes0.isEmpty then
        if compilation_args.isEmpty then
          Except.error (PError.syntaxError
            "DaCe program compilation requires either type annotations or arrays")
        else if compilation_args.length ≠ self.argnames.length then
          Except.error (PError.syntaxError
            "Arguments must match DaCe program parameters")
        else
          Except.ok (List.zip self.argnames
            (compilation_args.map _create_datadescriptor))
      else Except.ok argtypes0
    match resolved with
    | Except.error e => Except.error e
    | Except.ok argtypes =>
      let modules := modulesOf self.globalsList
      Except.ok (astparse self argtypes (globalVarsOf self) modules, modules)

/-- Pipeline events of `parse_from_function` (parser.py lines 116-199), in
the order the source performs them. -/
inductive Event where
  | generatePdp
  | initSDFG
  | setSource
  | inheritDeps
  | createStates
  | addDescriptors
  | resetSymbols
  | labelStates
  | buildDataflow
  | fillScopeConnectors
  | propagateMemlets
  | drawToFile
  | strictTransforms
  | validateSDFG
deriving DecidableEq, Repr

/-- The external collaborators of `parse_from_function`, abstracted over an
SDFG representation `S` and a parsed-program representation `P`: the `SDFG`
constructor and its mutating methods, the `depanalysis` passes, the
`labeling` pass, the strict-transformation optimizer, and the validator
(which either passes or raises). -/
structure SDFGOps (S P : Type) where
  init : P → S
  setSource : S → S
  inheritDeps : S → S
  createStates : S → S
  addDescriptors : S → S
  resetSymbols : S → S
  labelStates : S → S
  buildDataflow : S → S
  fillScopeConnectors : S → S
  propagateFlag : S → Bool
  propagateLabels : S → S
  applyStrict : S → S
  validate : S → Except PError Unit

/-- The unconditional construction steps of `parse_from_function` (parser.py
lines 134-178), in source order: `SDFG(pdp.name)`, `set_sourcecode`,
`inherit_dependencies`, `create_states_simple`, `add_datadesc` for all
arrays, the symbol reset of lines 160-164, state labelling,
`build_dataflow_graph`, and `fill_scope_connectors`. -/
def constructChain {S P : Type} (ops : SDFGOps S P) (p : P) : S :=
  ops.fillScopeConnectors (ops.buildDataflow (ops.labelStates
    (ops.resetSymbols (ops.addDescriptors (ops.createStates (ops.inheritDeps
    (ops.setSource (ops.init p))))))))

/-- The conditional memlet propagation of parser.py lines 181-182. -/
def afterPropagate {S P : Type} (ops : SDFGOps S P) (s : S) : S :=
  if ops.propagateFlag s then ops.propagateLabels s else s

/-- Trace contribution of the conditional memlet propagation. -/
def propagateTrace {S P : Type} (ops : SDFGOps S P) (s : S) : List Event :=
  if ops.propagateFlag s then [Event.propagateMemlets] else []

/-- The strict-transformation condition of parser.py lines 188-190: apply
exactly when `strict` equals `True`, or `strict` is `None` and the
configured `automatic_state_fusion` flag is set. -/
def strictDecision (strict : Option Bool) (cfgAutoFusion : Bool) : Bool :=
  strict == some true || (strict == none && cfgAutoFusion)

/-- The trace of the unconditional construction steps up to scope-connector
fill-in. -/
def baseTrace : List Event :=
  [Event.generatePdp, Event.initSDFG, Event.setSource, Event.inheritDeps,
   Event.createStates, Event.addDescriptors, Event.resetSymbols,
   Event.labelStates, Event.buildDataflow, Event.fillScopeConnectors]

/-- Embedding of `parse_from_function` (parser.py lines 116-199).  The
input is a `DaceProgramRec`, so the `isinstance(function, DaceProgram)`
check of line 126 holds by typing.  The pipeline runs `generate_pdp`, then
the construction steps in source order, conditionally propagates memlets,
draws, conditionally applies the strict transformations, draws again, and
validates last; the returned trace records the executed steps in order.
The configuration flag is an explicit argument. -/
def parse_from_function {S P : Type} (ops : SDFGOps S P) (astparse : ParserFun P)
    (function : DaceProgramRec) (compilation_args : List PyValue)
    (strict : Option Bool) (cfgAutoFusion : Bool) :
    Except PError (S × List Event) :=
  match generate_pdp astparse function compilation_args with
  | Except.error e => Except.error e
  | Except.ok pm =>
    let sdfg1 := constructChain ops pm.1
    let sdfg2 := afterPropagate ops sdfg1
    let sdfg3 := if strictDecision strict cfgAutoFusion then ops.applyStrict sdfg2 else sdfg2
    match ops.validate sdfg3 with
    | Except.error e => Except.error e
    | Except.ok _ =>
      Except.ok (sdfg3,
        baseTrace ++ propagateTrace ops sdfg1 ++ [Event.drawToFile]
          ++ (if strictDecision strict cfgAutoFusion
              then [Event.strictTransforms] else [])
          ++ [Event.drawToFile, Event.validateSDFG])

/-- The global names defined or imported by the module scope of
`parser.py`: its imports (lines 2-15) and its own definitions.  A bare name
used inside a function body resolves against this set (or the builtins);
`parse_function`, the name called on line 113, is not among them. -/
def parserModuleNames : List String :=
  ["print_function", "OrderedDict", "wraps", "inspect", "ast", "copy", "sys",
   "numpy", "data", "symbolic", "dtypes", "Config", "astparser", "astutils",
   "depanalysis", "SDFG", "labeling", "_create_datadescriptor",
   "_get_type_annotations", "_get_argnames", "_compile_module",
   "parse_from_file", "parse_from_function", "DaceProgram"]

/-- Embedding of `parse_from_file` (parser.py lines 96-113) from the point
where the file has been compiled and executed as a module: its
top-level bindings are given as a list in which `some p` marks a
`DaceProgram` binding.  The body filters the `DaceProgram` objects and maps
the comprehension `[parse_function(p, *compilation_args) for p in programs]`
over them; evaluating an element first resolves the global name
`parse_function`, raising `NameError` when it is undefined in the module
scope (the resolvable branch calls `parse_from_function`, the evidently
intended target, with the default `strict=None`). -/
def parse_from_file {S P : Type} (ops : SDFGOps S P) (astparse : ParserFun P)
    (moduleValues : List (Option DaceProgramRec)) (compilation_args : List PyValue)
    (cfgAutoFusion : Bool) : Except PError (List (S × List Event)) :=
  let programs := moduleValues.filterMap id
  programs.mapM fun p =>
    if parserModuleNames.contains "parse_function" then
      parse_from_function ops astparse p compilation_args none cfgAutoFusion
    else
      Except.error (PError.nameError "parse_function")

/-- Projection of a pipeline result to its event trace (empty on failure). -/
def traceOf {S : Type} : Except PError (S × List Event) → List Event
  | Except.ok sl => sl.2
  | Except.error _ => []

/-- A host value modelling a plain Python `int`: no descriptor capability,
not an array, not symbolic, but a `dtypes.typeclass` tag value `0`. -/
def vInt : PyValue := ⟨none, none, none, none, some 0, 0, none⟩

/-- A host value modelling a `numpy.ndarray` of dtype tag `1` and shape
`(2, 3)`. -/
def vArr : PyValue := ⟨none, none, some (1, [2, 3]), none, none, 5, none⟩

/-- A host value with no capability at all: only a runtime type tag `7`. -/
def vPlain : PyValue := ⟨none, none, none, none, none, 7, none⟩

/-- A program with one parameter `a` carrying an inline annotation and no
decorator arguments. -/
def progAnn : DaceProgramRec := ⟨"prog", [("a", vInt)], ["a"], [], [], []⟩

/-- A program supplying both a decorator type argument and an inline
annotation for its single parameter `a`. -/
def progBoth : DaceProgramRec := ⟨"prog2", [("a", vInt)], ["a"], [vInt], [], []⟩

/-- A program with one parameter and neither decorator arguments nor inline
annotations. -/
def progNoAnn : DaceProgramRec := ⟨"prog3", [], ["a"], [], [], []⟩

/-- A program whose globals bind the numpy module under the binding name
`builtins` (as produced by the import statement `import numpy as builtins`). -/
def progBuiltinsGlobal : DaceProgramRec :=
  ⟨"prog4", [("a", vInt)], ["a"], [], [], [("builtins", GlobalVal.moduleVal "numpy")]⟩

/-- A program whose globals bind the numpy module under the binding name
`np`. -/
def progModGlobal : DaceProgramRec :=
  ⟨"prog5", [("a", vInt)], ["a"], [], [], [("np", GlobalVal.moduleVal "numpy")]⟩

/-- A concrete instantiation of the external collaborators over natural
numbers: every construction step is the identity, propagation is on (the
default of the `SDFG.propagate` attribute), and validation passes. -/
def natOps : SDFGOps Nat Nat :=
  ⟨fun p => p, id, id, id, id, id, id, id, id, fun _ => true, id, id,
   fun _ => Except.ok ()⟩

/-- A concrete external parser returning a numeric token. -/
def natParse : ParserFun Nat := fun _ _ _ _ => 0

/-- A concrete external parser returning a unit token. -/
def unitParse : ParserFun Unit := fun _ _ _ _ => ()

/-- The event trace of a successful run with propagation on and the strict
transformations applied. -/
def fullTraceStrict : List Event :=
  [Event.generatePdp, Event.initSDFG, Event.setSource, Event.inheritDeps,
   Event.createStates, Event.addDescriptors, Event.resetSymbols,
   Event.labelStates, Event.buildDataflow, Event.fillScopeConnectors,
   Event.propagateMemlets, Event.drawToFile, Event.strictTransforms,
   Event.drawToFile, Event.validateSDFG]

/-! Helper lemmas shared by the claim theorems. -/

theorem dictLookup_dictSet_self {α : Type} (d : List (String × α)) (k : String) (v : α) :
    dictLookup (dictSet d k v) k = some v := by
  induction d with
  | nil => simp [dictSet, dictLookup]
  | cons kv rest ih =>
    by_cases h : kv.1 = k
    · simp [dictSet, dictLookup, h]
    · simp [dictSet, dictLookup, h, ih]

theorem dictLookup_dictSet_other {α : Type} (d : List (String × α)) (k : String)
    (v : α) (k' : String) (h : k' ≠ k) :
    dictLookup (dictSet d k v) k' = dictLookup d k' := by
  have hkk' : ¬(k = k') := fun hh => h hh.symm
  induction d with
  | nil => simp [dictSet, dictLookup, hkk']
  | cons kv rest ih =>
    by_cases hk : kv.1 = k
    · have hne : ¬(kv.1 = k') := by rw [hk]; exact hkk'
      simp [dictSet, dictLookup, hk, hkk', hne]
    · by_cases hk' : kv.1 = k'
      · simp [dictSet, dictLookup, hk, hk', h]
      · simp [dictSet, dictLookup, hk, hk', ih]

theorem dictLookup_moduleEntries (g : List (String × GlobalVal)) (k : String)
    (n : String)
    (h : dictLookup g k = some (GlobalVal.moduleVal n)) :
    dictLookup
      (g.filterMap fun kv =>
        match kv.2 with
        | GlobalVal.moduleVal m => some (kv.1, m)
        | _ => none) k = some n := by
  induction g with
  | nil => simp [dictLookup] at h
  | cons kv rest ih =>
    by_cases hk : kv.1 = k
    · rw [dictLookup] at h
      rw [if_pos hk] at h
      cases h2 : kv.2 with
      | moduleVal m =>
        rw [h2] at h
        have : m = n := by cases h; rfl
        subst this
        simp [List.filterMap_cons, h2, dictLookup, hk]
      | allowed v => rw [h2] at h; cases h
      | notAllowed t => rw [h2] at h; cases h
    · rw [dictLookup] at h
      rw [if_neg hk] at h
      cases h2 : kv.2 with
      | moduleVal m =>
        simp only [List.filterMap_cons, h2]
        rw [dictLookup, if_neg hk]
        exact ih h
      | allowed v => simp only [List.filterMap_cons, h2]; exact ih h
      | notAllowed t => simp only [List.filterMap_cons, h2]; exact ih h

theorem strictDecision_iff (strict : Option Bool) (cfg : Bool) :
    strictDecision strict cfg = true ↔
      (strict = some true ∨ (strict = none ∧ cfg = true)) := by
  cases strict with
  | none => cases cfg <;> decide
  | some b => cases b <;> cases cfg <;> decide

theorem both_sources_error (annotations : List (String × PyValue))
    (f_argnames : List String) (decorator_args : List PyValue)
    (hargs : decorator_args ≠ []) (hann : annotations ≠ []) :
    ∃ e, isUsageError e = true ∧
      _get_type_annotations annotations f_argnames decorator_args =
        Except.error e := by
  unfold _get_type_annotations
  by_cases hr : (annotations.any fun kv => kv.1 == "return") = true
  · exact ⟨PError.typeError "DaCe programs do not have a return type", rfl,
      by rw [if_pos hr]⟩
  · have h2 : 0 < decorator_args.length ∧ 0 < annotations.length :=
      ⟨List.length_pos_iff_ne_nil.mpr hargs, List.length_pos_iff_ne_nil.mpr hann⟩
    exact ⟨PError.syntaxError
      "DaCe programs can only have decorator arguments or type annotations, but not both",
      rfl, by rw [if_neg hr, if_pos h2]⟩

/-! Claim C4: dispatch order of the descriptor resolver. -/

/-- Claim C4: `_create_datadescriptor` dispatches in the fixed priority
order AlreadyDescribed (a `data.Data` instance or a `descriptor` attribute,
returned as that descriptor unchanged), NumericArray (an Array descriptor
with inferred element type and shape), SymbolicExpr (a Scalar descriptor of
the declared symbol type), TypeTag (a Scalar descriptor wrapping the type),
and Fallback (a Scalar descriptor inferred from the runtime type). -/
theorem C4_dispatch_order (v : PyValue) :
    (∀ d, alreadyDescribed v = some d → _create_datadescriptor v = d) ∧
    (alreadyDescribed v = none → ∀ t s, v.ndarrayInfo = some (t, s) →
      _create_datadescriptor v = Descriptor.array (typeclass t) s) ∧
    (alreadyDescribed v = none → v.ndarrayInfo = none →
      ∀ t, v.symbolicType = some t →
        _create_datadescriptor v = Descriptor.scalarD t) ∧
    (alreadyDescribed v = none → v.ndarrayInfo = none → v.symbolicType = none →
      ∀ t, v.typeclassVal = some t →
        _create_datadescriptor v = Descriptor.scalarD t) ∧
    (alreadyDescribed v = none → v.ndarrayInfo = none → v.symbolicType = none →
      v.typeclassVal = none →
      _create_datadescriptor v = Descriptor.scalarD (typeclass v.runtimeType)) := by
  rcases v with ⟨isD, dAttr, nd, sym, tc, rt, sn⟩
  unfold _create_datadescriptor alreadyDescribed
  cases isD <;> cases dAttr <;> cases nd <;> cases sym <;> cases tc <;> simp <;>
    first
    | rfl
    | (intro t s hts; subst hts; exact ⟨rfl, rfl⟩)

/-- Witness for C4: a numpy array with dtype tag 1 and shape (2, 3) resolves
to the corresponding Array descriptor through the NumericArray arm. -/
theorem C4_dispatch_order_witness :
    _create_datadescriptor vArr = Descriptor.array (typeclass 1) [2, 3] :=
  (C4_dispatch_order vArr).2.1 rfl 1 [2, 3] rfl

/-! Claim C7: totality of the descriptor resolver. -/

/-- Claim C7: `_create_datadescriptor` is a pure total function: every input
yields a data descriptor, and when no earlier arm applies the result is the
runtime-type-based Scalar default.  (The conversion `dtypes.typeclass` is
modelled from the spec as total, its module not being part of the given
sources.) -/
theorem C7_total_with_fallback (v : PyValue) :
    ∃ d, _create_datadescriptor v = d ∧
      (v.isData = none → v.descriptorAttr = none → v.ndarrayInfo = none →
        v.symbolicType = none → v.typeclassVal = none →
        d = Descriptor.scalarD (typeclass v.runtimeType)) := by
  refine ⟨_create_datadescriptor v, rfl, ?_⟩
  intro h1 h2 h3 h4 h5
  unfold _create_datadescriptor
  rw [h1, h2, h3, h4, h5]

/-- Witness for C7: a value with no capability at all resolves to the
fallback Scalar descriptor of its runtime type. -/
theorem C7_total_with_fallback_witness :
    ∃ d, _create_datadescriptor vPlain = d ∧
      (vPlain.isData = none → vPlain.descriptorAttr = none →
        vPlain.ndarrayInfo = none → vPlain.symbolicType = none →
        vPlain.typeclassVal = none →
        d = Descriptor.scalarD (typeclass vPlain.runtimeType)) :=
  C7_total_with_fallback vPlain

/-! Claim C1: both annotation sources fail before parsing. -/

/-- Claim C1: a callable supplying both decorator type arguments and inline
parameter type annotations makes construction fail with a usage error, and
the failure is independent of the external AST parser (which is therefore
never consulted): both `generate_pdp` and `parse_from_function` return the
same error for every parser and every collaborator instantiation. -/
theorem C1_both_sources_fail_before_parsing (f : DaceProgramRec)
    (ca : List PyValue) (hargs : f.args ≠ [])
    (hann : ∃ kv, kv ∈ f.annotations ∧ kv.1 ≠ "return") :
    ∃ e, isUsageError e = true ∧
      (∀ (P : Type) (pa : ParserFun P), generate_pdp pa f ca = Except.error e) ∧
      (∀ (S P : Type) (ops : SDFGOps S P) (pa : ParserFun P)
        (st : Option Bool) (cfg : Bool),
        parse_from_function ops pa f ca st cfg = Except.error e) := by
  have hne : f.annotations ≠ [] := by
    rcases hann with ⟨kv, hkv, _⟩
    intro hnil
    rw [hnil] at hkv
    cases hkv
  obtain ⟨e, he1, he2⟩ :=
    both_sources_error f.annotations f.argnames f.args hargs hne
  have hg : ∀ (P : Type) (pa : ParserFun P),
      generate_pdp pa f ca = Except.error e := by
    intro P pa
    unfold generate_pdp
    rw [he2]
  refine ⟨e, he1, hg, ?_⟩
  intro S P ops pa st cfg
  unfold parse_from_function
  rw [hg P pa]

/-- Witness for C1 at a concrete program with one decorator argument and one
inline annotation. -/
theorem C1_both_sources_fail_before_parsing_witness :
    ∃ e, isUsageError e = true ∧
      (∀ (P : Type) (pa : ParserFun P),
        generate_pdp pa progBoth [] = Except.error e) ∧
      (∀ (S P : Type) (ops : SDFGOps S P) (pa : ParserFun P)
        (st : Option Bool) (cfg : Bool),
        parse_from_function ops pa progBoth [] st cfg = Except.error e) :=
  C1_both_sources_fail_before_parsing progBoth [] (by decide)
    ⟨("a", vInt), by decide, by decide⟩

/-! Claim C2: determinism of construction. -/

/-- Claim C2: two independent construction runs on identical inputs (same
program, same compilation arguments, same strict toggle, same configuration
flag, same collaborators) produce identical results, hence structurally
identical SDFGs and identical traces. -/
theorem C2_deterministic {S P : Type} (ops₁ ops₂ : SDFGOps S P)
    (pa₁ pa₂ : ParserFun P) (f₁ f₂ : DaceProgramRec) (ca₁ ca₂ : List PyValue)
    (st₁ st₂ : Option Bool) (cfg₁ cfg₂ : Bool)
    (hops : ops₁ = ops₂) (hpa : pa₁ = pa₂) (hf : f₁ = f₂) (hca : ca₁ = ca₂)
    (hst : st₁ = st₂) (hcfg : cfg₁ = cfg₂) :
    parse_from_function ops₁ pa₁ f₁ ca₁ st₁ cfg₁ =
      parse_from_function ops₂ pa₂ f₂ ca₂ st₂ cfg₂ := by
  subst hops; subst hpa; subst hf; subst hca; subst hst; subst hcfg; rfl

/-- Witness for C2 at concrete inputs. -/
theorem C2_deterministic_witness :
    parse_from_function natOps natParse progAnn [] (some true) true =
      parse_from_function natOps natParse progAnn [] (some true) true :=
  C2_deterministic natOps natOps natParse natParse progAnn progAnn [] []
    (some true) (some true) true true rfl rfl rfl rfl rfl rfl

/-! Claim C5: error conditions of `_get_type_annotations`. -/

/-- Counterexample to C5 as stated: with no decorator arguments, no inline
annotations, and one parameter, the number of decorator arguments (zero)
differs from the number of parameters (one) — condition (3) of the claim
holds — yet `_get_type_annotations` raises nothing and returns the empty
mapping. -/
theorem C5_counterexample :
    ([] : List PyValue).length ≠ (["a"] : List String).length ∧
      _get_type_annotations [] ["a"] [] = Except.ok [] := by
  exact ⟨by decide, rfl⟩

/-- Claim C5 as amended: `_get_type_annotations` raises exactly when (1) a
return type is annotated, or (2) both decorator arguments and inline
annotations are present, or (3) decorator arguments are present and their
count differs from the parameter count, or (4) inline annotations are
present and the number of annotated parameters differs from the parameter
count; otherwise it returns the parameter-name-to-descriptor mapping (the
positional zip of the decorator arguments when those are present, else the
mapping derived from the annotations). -/
theorem C5_amended_error_characterization (annotations : List (String × PyValue))
    (f_argnames : List String) (decorator_args : List PyValue) :
    ((∃ e, _get_type_annotations annotations f_argnames decorator_args =
        Except.error e) ↔
      ((annotations.any fun kv => kv.1 == "return") = true
        ∨ (decorator_args ≠ [] ∧ annotations ≠ [])
        ∨ (decorator_args ≠ [] ∧ decorator_args.length ≠ f_argnames.length)
        ∨ (annotations ≠ [] ∧ annotations.length ≠ f_argnames.length)))
    ∧ (∀ m, _get_type_annotations annotations f_argnames decorator_args =
        Except.ok m →
      (decorator_args ≠ [] →
        m = List.zip f_argnames (decorator_args.map _create_datadescriptor))
      ∧ (decorator_args = [] →
        m = annotations.map fun kv => (kv.1, _create_datadescriptor kv.2))) := by
  unfold _get_type_annotations
  by_cases h1 : (annotations.any fun kv => kv.1 == "return") = true
  · rw [if_pos h1]
    refine ⟨⟨fun _ => Or.inl h1, fun _ => ⟨_, rfl⟩⟩, ?_⟩
    intro m hm
    exact Except.noConfusion hm
  · rw [if_neg h1]
    by_cases h2 : 0 < decorator_args.length ∧ 0 < annotations.length
    · rw [if_pos h2]
      refine ⟨⟨fun _ => Or.inr (Or.inl ⟨List.length_pos_iff_ne_nil.mp h2.1,
        List.length_pos_iff_ne_nil.mp h2.2⟩), fun _ => ⟨_, rfl⟩⟩, ?_⟩
      intro m hm
      exact Except.noConfusion hm
    · rw [if_neg h2]
      by_cases h3 : 0 < decorator_args.length ∧
          decorator_args.length ≠ f_argnames.length
      · rw [if_pos h3]
        refine ⟨⟨fun _ => Or.inr (Or.inr (Or.inl
          ⟨List.length_pos_iff_ne_nil.mp h3.1, h3.2⟩)), fun _ => ⟨_, rfl⟩⟩, ?_⟩
        intro m hm
        exact Except.noConfusion hm
      · rw [if_neg h3]
        by_cases h4 : 0 < decorator_args.length
        · rw [if_pos h4]
          have hannNil : annotations = [] := by
            by_contra hcon
            exact h2 ⟨h4, List.length_pos_iff_ne_nil.mpr hcon⟩
          have hlenEq : decorator_args.length = f_argnames.length := by
            by_contra hcon
            exact h3 ⟨h4, hcon⟩
          constructor
          · constructor
            · intro ⟨e, he⟩
              exact Except.noConfusion he
            · intro hr
              rcases hr with hr | ⟨_, hc⟩ | ⟨_, hc⟩ | ⟨hc, _⟩
              · exact absurd hr h1
              · exact absurd hannNil hc
              · exact absurd hlenEq hc
              · exact absurd hannNil hc
          · intro m hm
            have hm' : m = List.zip f_argnames
                (decorator_args.map _create_datadescriptor) := by
              cases hm
              rfl
            refine ⟨fun _ => hm', fun hnil => ?_⟩
            rw [hnil] at h4
            exact absurd h4 (by decide)
        · rw [if_neg h4]
          have hdNil : decorator_args = [] :=
            List.length_eq_zero.mp (Nat.eq_zero_of_not_pos h4)
          by_cases h5 : 0 < annotations.length ∧
              annotations.length ≠ f_argnames.length
          · rw [if_pos h5]
            refine ⟨⟨fun _ => Or.inr (Or.inr (Or.inr
              ⟨List.length_pos_iff_ne_nil.mp h5.1, h5.2⟩)),
              fun _ => ⟨_, rfl⟩⟩, ?_⟩
            intro m hm
            exact Except.noConfusion hm
          · rw [if_neg h5]
            constructor
            · constructor
              · intro ⟨e, he⟩
                exact Except.noConfusion he
              · intro hr
                rcases hr with hr | ⟨hc, _⟩ | ⟨hc, _⟩ | ⟨hc, hc'⟩
                · exact absurd hr h1
                · exact absurd hdNil hc
                · exact absurd hdNil hc
                · exact (h5 ⟨List.length_pos_iff_ne_nil.mpr hc, hc'⟩).elim
            · intro m hm
              have hm' : m = annotations.map
                  fun kv => (kv.1, _create_datadescriptor kv.2) := by
                cases hm
                rfl
              exact ⟨fun hcon => absurd hdNil hcon, fun _ => hm'⟩

/-- Witness for C5 as amended: a fully annotated single-parameter callable
with no decorator arguments yields the annotation-derived mapping. -/
theorem C5_amended_error_characterization_witness :
    ([("a", _create_datadescriptor vInt)] : List (String × Descriptor)) =
      [("a", vInt)].map (fun kv => (kv.1, _create_datadescriptor kv.2)) :=
  ((C5_amended_error_characterization [("a", vInt)] ["a"] []).2
    [("a", _create_datadescriptor vInt)] rfl).2 rfl

/-! Claim C6: fallback to compilation arguments. -/

theorem generate_pdp_empty_types {P : Type} (pa : ParserFun P)
    (f : DaceProgramRec) (ca : List PyValue)
    (hta : _get_type_annotations f.annotations f.argnames f.args =
      Except.ok []) :
    generate_pdp pa f ca =
      (if ca.isEmpty then
        Except.error (PError.syntaxError
          "DaCe program compilation requires either type annotations or arrays")
      else if ca.length ≠ f.argnames.length then
        Except.error (PError.syntaxError
          "Arguments must match DaCe program parameters")
      else
        Except.ok
          (pa f (List.zip f.argnames (ca.map _create_datadescriptor))
            (globalVarsOf f) (modulesOf f.globalsList),
           modulesOf f.globalsList)) := by
  unfold generate_pdp
  rw [hta]
  cases ca with
  | nil => rfl
  | cons c cs =>
    by_cases hl : cs.length + 1 = f.argnames.length
    · simp [List.isEmpty_cons, hl]
    · simp [List.isEmpty_cons, hl]

/-- Claim C6: for a callable with neither decorator type arguments nor
inline annotations, `generate_pdp` derives parameter types from the
compilation arguments by positional zip; when no compilation arguments are
given, or their count differs from the parameter count, it fails with a
usage error independently of the external parser. -/
theorem C6_compilation_args_fallback (f : DaceProgramRec) (ca : List PyValue)
    (hargs : f.args = []) (hann : f.annotations = []) :
    ((ca = [] ∨ ca.length ≠ f.argnames.length) →
      ∃ e, isUsageError e = true ∧
        ∀ (P : Type) (pa : ParserFun P), generate_pdp pa f ca = Except.error e)
    ∧ (ca ≠ [] → ca.length = f.argnames.length →
      ∀ (P : Type) (pa : ParserFun P),
        generate_pdp pa f ca =
          Except.ok
            (pa f (List.zip f.argnames (ca.map _create_datadescriptor))
              (globalVarsOf f) (modulesOf f.globalsList),
             modulesOf f.globalsList)) := by
  have hta : _get_type_annotations f.annotations f.argnames f.args =
      Except.ok [] := by
    rw [hann, hargs]
    rfl
  constructor
  · intro hbad
    by_cases hca : ca = []
    · refine ⟨PError.syntaxError
        "DaCe program compilation requires either type annotations or arrays",
        rfl, ?_⟩
      intro P pa
      rw [generate_pdp_empty_types pa f ca hta, hca]
      rfl
    · have hlen : ca.length ≠ f.argnames.length := by
        rcases hbad with hbad | hbad
        · exact absurd hbad hca
        · exact hbad
      refine ⟨PError.syntaxError
        "Arguments must match DaCe program parameters", rfl, ?_⟩
      intro P pa
      rw [generate_pdp_empty_types pa f ca hta]
      cases ca with
      | nil => exact absurd rfl hca
      | cons c cs =>
        have hl : ¬cs.length + 1 = f.argnames.length := by simpa using hlen
        simp [List.isEmpty_cons, hl]
  · intro hca hlen P pa
    rw [generate_pdp_empty_types pa f ca hta]
    cases ca with
    | nil => exact absurd rfl hca
    | cons c cs =>
      have hl : cs.length + 1 = f.argnames.length := by simpa using hlen
      simp [List.isEmpty_cons, hl]

/-- Witness for C6: one parameter, no annotation sources, no compilation
arguments — construction fails with the usage error, for every parser. -/
theorem C6_compilation_args_fallback_witness :
    ∃ e, isUsageError e = true ∧
      ∀ (P : Type) (pa : ParserFun P),
        generate_pdp pa progNoAnn [] = Except.error e :=
  (C6_compilation_args_fallback progNoAnn [] rfl rfl).1 (Or.inl rfl)

/-! Trace shape of successful pipeline runs. -/

theorem parse_from_function_ok_trace {S P : Type} (ops : SDFGOps S P)
    (pa : ParserFun P) (f : DaceProgramRec) (ca : List PyValue)
    (strict : Option Bool) (cfg : Bool) (s : S) (tr : List Event)
    (h : parse_from_function ops pa f ca strict cfg = Except.ok (s, tr)) :
    ∃ trProp : List Event,
      (trProp = [] ∨ trProp = [Event.propagateMemlets]) ∧
      tr = baseTrace ++ trProp ++ [Event.drawToFile]
        ++ (if strictDecision strict cfg then [Event.strictTransforms] else [])
        ++ [Event.drawToFile, Event.validateSDFG] := by
  unfold parse_from_function at h
  cases hg : generate_pdp pa f ca with
  | error e => rw [hg] at h; exact Except.noConfusion h
  | ok pm =>
    rw [hg] at h
    dsimp only at h
    cases hv : ops.validate (if strictDecision strict cfg
        then ops.applyStrict (afterPropagate ops (constructChain ops pm.1))
        else afterPropagate ops (constructChain ops pm.1)) with
    | error e => rw [hv] at h; exact Except.noConfusion h
    | ok u =>
      rw [hv] at h
      simp only [Except.ok.injEq, Prod.mk.injEq] at h
      refine ⟨propagateTrace ops (constructChain ops pm.1), ?_, h.2.symm⟩
      unfold propagateTrace
      by_cases hp : ops.propagateFlag (constructChain ops pm.1) = true
      · rw [if_pos hp]; exact Or.inr rfl
      · rw [if_neg hp]; exact Or.inl rfl

/-! Claim C8: the strict-transformation toggle. -/

/-- Claim C8: in a successful run of `parse_from_function` the strict
transformations are applied if and only if the `strict` parameter is
`True`, or it is `None` and the configured `automatic_state_fusion` flag is
set; `strict=False` disables the pass regardless of the configured
default. -/
theorem C8_strict_toggle {S P : Type} (ops : SDFGOps S P) (pa : ParserFun P)
    (f : DaceProgramRec) (ca : List PyValue) (strict : Option Bool)
    (cfg : Bool) (s : S) (tr : List Event)
    (h : parse_from_function ops pa f ca strict cfg = Except.ok (s, tr)) :
    (Event.strictTransforms ∈ tr ↔
      (strict = some true ∨ (strict = none ∧ cfg = true)))
    ∧ (strict = some false → Event.strictTransforms ∉ tr) := by
  obtain ⟨trProp, hProp, htr⟩ :=
    parse_from_function_ok_trace ops pa f ca strict cfg s tr h
  subst htr
  have hmem : Event.strictTransforms ∈
      baseTrace ++ trProp ++ [Event.drawToFile]
        ++ (if strictDecision strict cfg then [Event.strictTransforms] else [])
        ++ [Event.drawToFile, Event.validateSDFG] ↔
      strictDecision strict cfg = true := by
    rcases hProp with h0 | h0 <;> subst h0 <;>
      by_cases hd : strictDecision strict cfg <;> simp [baseTrace, hd]
  constructor
  · rw [hmem, strictDecision_iff]
  · intro hsf
    subst hsf
    have hfd : strictDecision (some false) cfg = false := by
      cases cfg <;> decide
    rw [hmem, hfd]
    decide

/-- Witness for C8: a concrete successful run with `strict` set to `True`
contains the strict-transformation step. -/
theorem C8_strict_toggle_witness :
    (Event.strictTransforms ∈ fullTraceStrict ↔
      ((some true : Option Bool) = some true ∨
        ((some true : Option Bool) = none ∧ true = true)))
    ∧ ((some true : Option Bool) = some false →
      Event.strictTransforms ∉ fullTraceStrict) :=
  C8_strict_toggle natOps natParse progAnn [] (some true) true 0
    fullTraceStrict rfl

/-! Claim C3: position of optimization relative to validation. -/

/-- Counterexample to C3 as stated: in the concrete successful run with
`strict` set to `True`, the strict-transformation optimization step occurs
strictly before the validation step (it lies in the prefix of the trace
preceding `validateSDFG`), so the SDFG is mutated by an optimization pass
before validation succeeds. -/
theorem C3_counterexample :
    parse_from_function natOps natParse progAnn [] (some true) true =
      Except.ok (0, fullTraceStrict) ∧
    Event.strictTransforms ∈
      fullTraceStrict.takeWhile (fun e => decide (e ≠ Event.validateSDFG)) :=
  ⟨rfl, by decide⟩

/-- Claim C3 as amended: validation is the terminal step of every
successful construction run of `parse_from_function`; the strict
transformation pass, when enabled, is applied before validation (not
after), so the SDFG may be mutated by it before validation succeeds. -/
theorem C3_amended_validation_terminal {S P : Type} (ops : SDFGOps S P)
    (pa : ParserFun P) (f : DaceProgramRec) (ca : List PyValue)
    (strict : Option Bool) (cfg : Bool) (s : S) (tr : List Event)
    (h : parse_from_function ops pa f ca strict cfg = Except.ok (s, tr)) :
    tr.getLast? = some Event.validateSDFG ∧
    (strict = some true → Event.strictTransforms ∈ tr) := by
  obtain ⟨trProp, hProp, htr⟩ :=
    parse_from_function_ok_trace ops pa f ca strict cfg s tr h
  subst htr
  constructor
  · have hne : ([Event.drawToFile, Event.validateSDFG] : List Event) ≠ [] := by
      simp
    rw [List.getLast?_append_of_ne_nil _ hne]
    rfl
  · intro hst
    subst hst
    have hd : strictDecision (some true) cfg = true := by cases cfg <;> decide
    rw [hd]
    simp [List.mem_append]

/-- Witness for the amended C3 at a concrete successful run. -/
theorem C3_amended_validation_terminal_witness :
    fullTraceStrict.getLast? = some Event.validateSDFG ∧
    ((some true : Option Bool) = some true →
      Event.strictTransforms ∈ fullTraceStrict) :=
  C3_amended_validation_terminal natOps natParse progAnn [] (some true) true 0
    fullTraceStrict rfl

/-! Claim C9: the module-alias mapping. -/

theorem generate_pdp_ok_modules {P : Type} (pa : ParserFun P)
    (f : DaceProgramRec) (ca : List PyValue) (p : P)
    (mods : List (String × String))
    (h : generate_pdp pa f ca = Except.ok (p, mods)) :
    mods = modulesOf f.globalsList := by
  unfold generate_pdp at h
  cases hta : _get_type_annotations f.annotations f.argnames f.args with
  | error e => rw [hta] at h; exact Except.noConfusion h
  | ok a0 =>
    rw [hta] at h
    dsimp only at h
    split at h
    · exact Except.noConfusion h
    · simp only [Except.ok.injEq, Prod.mk.injEq] at h
      exact h.2.symm

/-- Counterexample to C9 as stated: when the globals of the callable bind the
numpy module (canonical name `numpy`) under the binding name `builtins`,
the returned module-alias mapping does not contain the claimed per-module
entry mapping that binding name to `numpy`: the unconditional
`builtins`-to-empty-string assignment overwrites it. -/
theorem C9_counterexample :
    generate_pdp unitParse progBuiltinsGlobal [] =
      Except.ok ((), [("builtins", "")]) ∧
    dictLookup [("builtins", "")] "builtins" ≠ some "numpy" :=
  ⟨rfl, by decide⟩

/-- Claim C9 as amended: the module-alias mapping returned by a successful
`generate_pdp` maps `builtins` to the empty string (this assignment
overriding any module bound in the globals under the name `builtins`), and
maps every other binding name of a module in the globals of the callable to
the canonical name of that module. -/
theorem C9_amended_modules_mapping {P : Type} (pa : ParserFun P)
    (f : DaceProgramRec) (ca : List PyValue) (p : P)
    (mods : List (String × String))
    (h : generate_pdp pa f ca = Except.ok (p, mods)) :
    dictLookup mods "builtins" = some "" ∧
    ∀ k n, k ≠ "builtins" →
      dictLookup f.globalsList k = some (GlobalVal.moduleVal n) →
      dictLookup mods k = some n := by
  have hm : mods = modulesOf f.globalsList :=
    generate_pdp_ok_modules pa f ca p mods h
  subst hm
  unfold modulesOf
  constructor
  · exact dictLookup_dictSet_self _ _ _
  · intro k n hk hg
    rw [dictLookup_dictSet_other _ _ _ _ hk]
    exact dictLookup_moduleEntries f.globalsList k n hg

/-- Witness for the amended C9: a concrete program binding numpy under the
name `np` yields a mapping with both the `builtins` entry and the `np`
entry. -/
theorem C9_amended_modules_mapping_witness :
    dictLookup [("np", "numpy"), ("builtins", "")] "builtins" = some "" ∧
    ∀ k n, k ≠ "builtins" →
      dictLookup progModGlobal.globalsList k = some (GlobalVal.moduleVal n) →
      dictLookup [("np", "numpy"), ("builtins", "")] k = some n :=
  C9_amended_modules_mapping unitParse progModGlobal [] ()
    [("np", "numpy"), ("builtins", "")] rfl

/-! Claim C10: `parse_from_file`. -/

/-- Claim C10 is refuted by the code: the name `parse_function` called on
line 113 of parser.py is not defined in the module scope, so any module
binding at least one `DaceProgram` makes `parse_from_file` raise
`NameError` instead of returning a list of SDFGs; a module binding none
returns the empty list without ever evaluating the undefined name. -/
theorem C10_parse_function_undefined :
    parse_from_file natOps natParse [some progAnn, none] [] true =
      Except.error (PError.nameError "parse_function") ∧
    parse_from_file natOps natParse ([none] : List (Option DaceProgramRec)) []
        true = Except.ok [] := by
  constructor
  · rfl
  · rfl

end DaceParser
